import Mathlib

/-!
Shallow embedding of the AMD-SVM per-CPU virtualization core
(`hypervisor/arch/x86/svm.c`) and of the per-cell statistics reader
(`driver/sysfs.c`) of the Jailhouse partitioning hypervisor, with proofs
about the embedded code.

Conventions of the embedding:
* C machine integers (`u32`, `u64`, `unsigned long`) are embedded as `Nat`;
  where C arithmetic truncates, the embedding applies `% 2 ^ 64` (or a mask)
  explicitly at the same place the C code truncates.
* Architectural and header constants (x86 control-register bits, EFER bits,
  SVM exit codes, VMCB clean bits, instruction lengths) come from the x86
  architecture manuals and the repository headers; they are named as in the
  source.
* External collaborators (x2APIC emulation, hypercall handling, port-I/O and
  page-fault handlers, guest-page mapping, platform events) live outside the
  two source files; they are embedded as oracle fields of an `Env` record.
  The dispatcher and emulators themselves are translated from the source.
* `vcpu_tlb_flush` additionally increments a ghost counter `flushes` so that
  "signals a translation-cache flush" is observable and countable; its
  effect on the control block (`tlb_control`) is also modelled.
-/

/-! ### Architectural and header constants -/

def X86_CR0_PE : Nat := 1
def X86_CR0_ET : Nat := 1 <<< 4
def X86_CR0_WP : Nat := 1 <<< 16
def X86_CR0_NW : Nat := 1 <<< 29
def X86_CR0_CD : Nat := 1 <<< 30
def X86_CR0_PG : Nat := 1 <<< 31
def X86_CR4_PAE : Nat := 1 <<< 5

def EFER_LME : Nat := 1 <<< 8
def EFER_LMA : Nat := 1 <<< 10
def EFER_NXE : Nat := 1 <<< 11
def EFER_SVME : Nat := 1 <<< 12

def MSR_EFER : Nat := 0xc0000080
def MSR_X2APIC_BASE : Nat := 0x800
def MSR_X2APIC_END : Nat := 0x83f

/-- From the source: `#define MTRR_DEFTYPE 0x2ff`. -/
def MTRR_DEFTYPE : Nat := 0x2ff

/-- From the source: `#define PAT_RESET_VALUE 0x0007040600070406UL`. -/
def PAT_RESET_VALUE : Nat := 0x0007040600070406

/-- From the source: `#define SVM_CR0_ALLOWED_BITS (~X86_CR0_NW)`,
the complement taken at `unsigned long` (64-bit) width. -/
def SVM_CR0_ALLOWED_BITS : Nat := 2 ^ 64 - 1 - X86_CR0_NW

def X86_XCR0_FP : Nat := 1

def PAGE_SIZE : Nat := 0x1000
def XAPIC_BASE : Nat := 0xfee00000

def APIC_BSP_PSEUDO_SIPI : Nat := 0x100

def CLEAN_BITS_CRX : Nat := 1 <<< 5

def SVM_TLB_FLUSH_ALL : Nat := 1
def SVM_TLB_FLUSH_GUEST : Nat := 3

def X86_INST_LEN_MOV_TO_CR : Nat := 3
def X86_INST_LEN_RDMSR : Nat := 2
def X86_INST_LEN_WRMSR : Nat := 2
def X86_INST_LEN_XSETBV : Nat := 3

/-- SVM exit codes (APMv2; `asm/svm.h`).  `VMEXIT_INVALID` is `(u64)-1`. -/
def VMEXIT_INVALID : Nat := 2 ^ 64 - 1
def VMEXIT_CR0_SEL_WRITE : Nat := 0x65
def VMEXIT_NMI : Nat := 0x61
def VMEXIT_CPUID : Nat := 0x72
def VMEXIT_IOIO : Nat := 0x7b
def VMEXIT_MSR : Nat := 0x7c
def VMEXIT_VMMCALL : Nat := 0x81
def VMEXIT_XSETBV : Nat := 0x8d
def VMEXIT_NPF : Nat := 0x400

/-- Page-table entry permission flags (`asm/paging.h`). -/
def PAGE_FLAG_PRESENT : Nat := 0x0001
def PAGE_FLAG_RW : Nat := 0x0002
def PAGE_FLAG_US : Nat := 0x0004
def PAGE_FLAG_NOEXECUTE : Nat := 1 <<< 63

/-- Memory-region permission flags (`jailhouse/cell-config.h`). -/
def JAILHOUSE_MEM_READ : Nat := 0x0001
def JAILHOUSE_MEM_WRITE : Nat := 0x0002
def JAILHOUSE_MEM_EXECUTE : Nat := 0x0004
def JAILHOUSE_MEM_COMM_REGION : Nat := 0x0010

/-! ### Bit-level helper lemmas -/

theorem land_two_pow_ne_zero_iff (n k : Nat) :
    n &&& 2 ^ k ≠ 0 ↔ n.testBit k = true := by
  constructor
  · intro h
    by_contra hb
    apply h
    apply Nat.eq_of_testBit_eq
    intro i
    simp only [Nat.testBit_and, Nat.zero_testBit]
    rcases eq_or_ne i k with rfl | hik
    · simp [Bool.eq_false_iff.mpr hb]
    · simp [Nat.testBit_two_pow_of_ne (Ne.symm hik)]
  · intro h h0
    have := congrArg (fun x => Nat.testBit x k) h0
    simp only [Nat.testBit_and, Nat.zero_testBit, Nat.testBit_two_pow_self, h,
      Bool.true_and] at this
    exact absurd this (by decide)

theorem land_eq_iff_forall (a b m : Nat) :
    a &&& m = b &&& m ↔
      ∀ i, m.testBit i = true → a.testBit i = b.testBit i := by
  constructor
  · intro h i hm
    have := congrArg (fun x => Nat.testBit x i) h
    simpa [Nat.testBit_and, hm] using this
  · intro h
    apply Nat.eq_of_testBit_eq
    intro i
    simp only [Nat.testBit_and]
    by_cases hm : m.testBit i = true
    · rw [h i hm]
    · simp [Bool.eq_false_iff.mpr hm]

theorem xor_land_eq_zero_iff (a b m : Nat) :
    (a ^^^ b) &&& m = 0 ↔ a &&& m = b &&& m := by
  rw [land_eq_iff_forall]
  constructor
  · intro h i hm
    have := congrArg (fun x => Nat.testBit x i) h
    simp only [Nat.testBit_and, Nat.testBit_xor, Nat.zero_testBit, hm,
      Bool.and_true, Bool.and_eq_false_imp] at this
    cases hxa : a.testBit i <;> cases hxb : b.testBit i <;> simp_all
  · intro h
    apply Nat.eq_of_testBit_eq
    intro i
    simp only [Nat.testBit_and, Nat.testBit_xor, Nat.zero_testBit]
    by_cases hm : m.testBit i = true
    · simp [hm, h i hm]
    · simp [Bool.eq_false_iff.mpr hm]

theorem testBit_efer_flush_mask (i : Nat) :
    Nat.testBit (EFER_LME ||| EFER_NXE) i = true ↔ i = 8 ∨ i = 11 := by
  constructor
  · intro h
    have hlt : i < 12 := by
      by_contra hge
      rw [Nat.testBit_lt_two_pow] at h
      · exact Bool.false_ne_true h
      · calc EFER_LME ||| EFER_NXE < 2 ^ 12 := by decide
          _ ≤ 2 ^ i := Nat.pow_le_pow_right (by omega) (by omega)
    interval_cases i <;> revert h <;> decide
  · rintro (rfl | rfl) <;> decide

theorem testBit_cr0_flush_mask (i : Nat) :
    Nat.testBit (X86_CR0_PG ||| X86_CR0_WP ||| X86_CR0_CD ||| X86_CR0_NW) i
      = true ↔ i = 16 ∨ i = 29 ∨ i = 30 ∨ i = 31 := by
  constructor
  · intro h
    have hlt : i < 32 := by
      by_contra hge
      rw [Nat.testBit_lt_two_pow] at h
      · exact Bool.false_ne_true h
      · calc X86_CR0_PG ||| X86_CR0_WP ||| X86_CR0_CD ||| X86_CR0_NW
              < 2 ^ 32 := by decide
          _ ≤ 2 ^ i := Nat.pow_le_pow_right (by omega) (by omega)
    interval_cases i <;> revert h <;> decide
  · rintro (rfl | rfl | rfl | rfl) <;> decide

theorem efer_toggle_iff (a b : Nat) :
    (a ^^^ b) &&& (EFER_LME ||| EFER_NXE) ≠ 0 ↔
      a.testBit 8 ≠ b.testBit 8 ∨ a.testBit 11 ≠ b.testBit 11 := by
  rw [Ne, xor_land_eq_zero_iff, land_eq_iff_forall]
  constructor
  · intro h
    by_contra hc
    push_neg at hc
    apply h
    intro i hm
    rcases (testBit_efer_flush_mask i).mp hm with rfl | rfl
    · exact hc.1
    · exact hc.2
  · rintro (h | h) hall
    · exact h (hall 8 (by decide))
    · exact h (hall 11 (by decide))

theorem cr0_toggle_iff (a b : Nat) :
    (a ^^^ b) &&& (X86_CR0_PG ||| X86_CR0_WP ||| X86_CR0_CD ||| X86_CR0_NW)
        ≠ 0 ↔
      a.testBit 31 ≠ b.testBit 31 ∨ a.testBit 16 ≠ b.testBit 16 ∨
      a.testBit 30 ≠ b.testBit 30 ∨ a.testBit 29 ≠ b.testBit 29 := by
  rw [Ne, xor_land_eq_zero_iff, land_eq_iff_forall]
  constructor
  · intro h
    by_contra hc
    push_neg at hc
    apply h
    intro i hm
    rcases (testBit_cr0_flush_mask i).mp hm with rfl | rfl | rfl | rfl
    · exact hc.2.1
    · exact hc.2.2.2
    · exact hc.2.2.1
    · exact hc.1
  · rintro (h | h | h | h) hall
    · exact h (hall 31 (by decide))
    · exact h (hall 16 (by decide))
    · exact h (hall 30 (by decide))
    · exact h (hall 29 (by decide))

theorem shiftLeft32_mod_pow64 (x : Nat) :
    (x <<< 32) % 2 ^ 64 = (x &&& 0xffffffff) <<< 32 := by
  have h1 : x &&& 0xffffffff = x % 2 ^ 32 := by
    have : (0xffffffff : Nat) = 2 ^ 32 - 1 := by decide
    rw [this, Nat.and_pow_two_sub_one_eq_mod]
  rw [h1, Nat.shiftLeft_eq, Nat.shiftLeft_eq]
  have h2 : (2 : Nat) ^ 64 = 2 ^ 32 * 2 ^ 32 := by decide
  rw [h2, Nat.mul_mod_mul_right]

/-! ### Data model

`Regs` mirrors `struct registers` (the guest general-purpose register save
area, in its memory layout order, including the unused slot where `rsp`
would sit).  `Vmcb` carries the subset of `struct vmcb` fields that the
embedded operations touch.  `Stats` mirrors the per-CPU
`JAILHOUSE_CPU_STAT_*` counters.  `PerCpu` bundles the control block, the
counters, the host MSRs written by the embedded code, and a ghost counter
of translation-cache flush signals. -/

structure Regs where
  r15 : Nat
  r14 : Nat
  r13 : Nat
  r12 : Nat
  r11 : Nat
  r10 : Nat
  r9 : Nat
  r8 : Nat
  rdi : Nat
  rsi : Nat
  rbp : Nat
  unused : Nat
  rbx : Nat
  rdx : Nat
  rcx : Nat
  rax : Nat
deriving Repr, DecidableEq

/-- Array view of the register save area: `((unsigned long *)guest_regs)[i]`. -/
def Regs.idx (r : Regs) : Nat → Nat
  | 0 => r.r15
  | 1 => r.r14
  | 2 => r.r13
  | 3 => r.r12
  | 4 => r.r11
  | 5 => r.r10
  | 6 => r.r9
  | 7 => r.r8
  | 8 => r.rdi
  | 9 => r.rsi
  | 10 => r.rbp
  | 11 => r.unused
  | 12 => r.rbx
  | 13 => r.rdx
  | 14 => r.rcx
  | _ => r.rax

/-- All-zero register save area (`memset(guest_regs, 0, sizeof(*guest_regs))`). -/
def zeroRegs : Regs :=
  { r15 := 0, r14 := 0, r13 := 0, r12 := 0, r11 := 0, r10 := 0, r9 := 0,
    r8 := 0, rdi := 0, rsi := 0, rbp := 0, unused := 0, rbx := 0, rdx := 0,
    rcx := 0, rax := 0 }

structure Vmcb where
  exitcode : Nat
  exitinfo1 : Nat
  exitinfo2 : Nat
  rip : Nat
  rsp : Nat
  rflags : Nat
  cr0 : Nat
  cr3 : Nat
  cr4 : Nat
  efer : Nat
  cs_selector : Nat
  cs_base : Nat
  cs_limit : Nat
  cs_access_rights : Nat
  g_pat : Nat
  clean_bits : Nat
  tlb_control : Nat
  n_cr3 : Nat
deriving Repr, DecidableEq

structure Stats where
  total : Nat
  mmio : Nat
  management : Nat
  hypercall : Nat
  pio : Nat
  xapic : Nat
  cr : Nat
  msr : Nat
  cpuid : Nat
  xsetbv : Nat
deriving Repr, DecidableEq

structure PerCpu where
  vmcb : Vmcb
  stats : Stats
  gs_base : Nat
  host_pat : Nat
  host_xcr0 : Nat
  flushes : Nat
deriving Repr, DecidableEq

/-- Result of `vcpu_get_guest_paging_structs`: which fixed root-paging
descriptor array is selected (`x86_64_paging`, `i386_paging`,
`realmode_paging`). -/
inductive RootPaging where
  | x86_64
  | i386
  | realmode
deriving Repr, DecidableEq

structure GuestPagingStructures where
  root_paging : RootPaging
  root_table_gphys : Nat
deriving Repr, DecidableEq

structure VcpuExecutionState where
  efer : Nat
  rflags : Nat
  cs : Nat
  rip : Nat
deriving Repr, DecidableEq

structure VcpuPfIntercept where
  phys_addr : Nat
  is_write : Bool
deriving Repr, DecidableEq

structure VcpuIoIntercept where
  port : Nat
  size : Nat
  is_in : Bool
  inst_len : Nat
  rep_or_str : Bool
deriving Repr, DecidableEq

/-- External collaborators and CPU-feature flags.  Every field models code
outside the two source files: feature bits discovered at init, the platform
event poll, the x2APIC/xAPIC emulators, the hypercall, port-I/O and
page-fault handlers, and the guest-page mapper backing `vcpu_map_inst`
(given the paging structures and a guest-virtual address, it returns the
host-visible byte stream from that address, or `none` when the guest page
cannot be mapped). -/
structure Env where
  cpu_data_addr : Nat
  has_assists : Bool
  has_flush_by_asid : Bool
  cell_npt_root : Nat
  xcr0_supported : Nat
  events : Int
  x2apic_read : Regs → Regs
  x2apic_write : Regs → Bool
  hypercall : Regs → VcpuExecutionState → Regs
  apic_mmio : Regs → Nat → GuestPagingStructures → Nat → Bool → Nat × Regs
  io_access : Regs → VcpuIoIntercept → Bool × Regs
  pt_violation : Regs → VcpuPfIntercept → Bool × Regs
  guest_mem : GuestPagingStructures → Nat → Option (Nat → Nat)

/-! ### Embedded operations (`hypervisor/arch/x86/svm.c`) -/

/-- Embeds `vcpu_skip_emulated_instruction`. -/
def vcpu_skip_emulated_instruction (inst_len : Nat) (st : PerCpu) : PerCpu :=
  { st with vmcb := { st.vmcb with rip := (st.vmcb.rip + inst_len) % 2 ^ 64 } }

/-- Embeds `vcpu_tlb_flush`; also counts the signal in the ghost field. -/
def vcpu_tlb_flush (env : Env) (st : PerCpu) : PerCpu :=
  { st with
    vmcb := { st.vmcb with
      tlb_control := if env.has_flush_by_asid then SVM_TLB_FLUSH_GUEST
                     else SVM_TLB_FLUSH_ALL },
    flushes := st.flushes + 1 }

/-- Embeds `update_efer`. -/
def update_efer (env : Env) (st : PerCpu) : PerCpu :=
  let efer := st.vmcb.efer
  if efer &&& (EFER_LME ||| EFER_LMA) ≠ EFER_LME then st
  else
    let efer2 := efer ||| EFER_LMA
    let st1 := if (st.vmcb.efer ^^^ efer2) &&& EFER_LMA ≠ 0 then
                 vcpu_tlb_flush env st
               else st
    { st1 with
      vmcb := { st1.vmcb with
        efer := efer2,
        clean_bits := st1.vmcb.clean_bits &&& (0xffffffff ^^^ CLEAN_BITS_CRX) } }

/-- Embeds `vcpu_get_guest_paging_structs`; `none` is the
`"FATAL: Unsupported paging mode"` path. -/
def vcpu_get_guest_paging_structs (v : Vmcb) : Option GuestPagingStructures :=
  if v.efer &&& EFER_LMA ≠ 0 then
    some { root_paging := RootPaging.x86_64,
           root_table_gphys := v.cr3 &&& 0x000ffffffffff000 }
  else if v.cr0 &&& X86_CR0_PG ≠ 0 ∧ v.cr4 &&& X86_CR4_PAE = 0 then
    some { root_paging := RootPaging.i386,
           root_table_gphys := v.cr3 &&& 0xfffff000 }
  else if v.cr0 &&& X86_CR0_PG = 0 then
    some { root_paging := RootPaging.realmode, root_table_gphys := 0xff000 }
  else
    none

/-- Embeds `struct parse_context`.  The C field `inst` is a pointer into
host-mapped guest memory; it is embedded as the byte stream readable from
that pointer (`inst 0` is `*inst`, advancing the pointer shifts the
stream). -/
structure ParseContext where
  remaining : Nat
  size : Nat
  cs_base : Nat
  inst : Nat → Nat

/-- Modelled from the spec: `vcpu_map_inst` (in `vcpu.c`, outside the given
sources) maps the guest page containing `pc` and returns a pointer to the
instruction bytes plus the number of contiguous bytes available up to the
page end, clamped to the requested size; it fails when the page cannot be
mapped (`env.guest_mem` returns `none`) or when zero bytes are requested. -/
def vcpu_map_inst (env : Env) (pg_structs : GuestPagingStructures)
    (pc : Nat) (size : Nat) : Option ((Nat → Nat) × Nat) :=
  if size = 0 then none
  else
    (env.guest_mem pg_structs pc).bind fun stream =>
      some (stream, min size (PAGE_SIZE - pc % PAGE_SIZE))

/-- Embeds `ctx_advance`.  Returns the updated context and program counter,
or `none` when `vcpu_map_inst` fails. -/
def ctx_advance (env : Env) (pg_structs : GuestPagingStructures)
    (ctx : ParseContext) (pc : Nat) : Option (ParseContext × Nat) :=
  if ctx.size = 0 then
    (vcpu_map_inst env pg_structs (ctx.cs_base + pc) ctx.remaining).bind
      fun sm =>
        some ({ ctx with size := sm.2, inst := sm.1,
                         remaining := ctx.remaining - sm.2 }, pc + sm.2)
  else some (ctx, pc)

/-- Pointer increment `ctx.inst++`. -/
def ParseContext.next (ctx : ParseContext) : ParseContext :=
  { ctx with inst := fun i => ctx.inst (i + 1) }

/-- Embeds `x86_parse_mov_to_cr` with the two-iteration opcode loop
unrolled (`opcodes[] = {0x0f, 0x22}`).  Returns the source
general-purpose-register index (`modrm & 0x7`) on a match, `none`
otherwise. -/
def x86_parse_mov_to_cr (env : Env) (v : Vmcb) (pc0 : Nat) (reg : Nat) :
    Option Nat :=
  (vcpu_get_guest_paging_structs v).bind fun pg_structs =>
  let ctx0 : ParseContext :=
    { remaining := 2, size := 0,
      cs_base := if v.efer &&& EFER_LMA ≠ 0 then 0 else v.cs_base,
      inst := fun _ => 0 }
  (ctx_advance env pg_structs ctx0 pc0).bind fun s1 =>
  if s1.1.inst 0 ≠ 0x0f then none
  else
  (ctx_advance env pg_structs s1.1 s1.2).bind fun s2 =>
  let ctx2 := s2.1.next
  if ctx2.inst 0 ≠ 0x22 then none
  else
  (ctx_advance env pg_structs ctx2 s2.2).bind fun s3 =>
  let ctx3 := s3.1.next
  (ctx_advance env pg_structs ctx3 s3.2).bind fun s4 =>
  let modrm := s4.1.inst 0
  if (modrm &&& 0x38) >>> 3 ≠ reg then none
  else some (modrm &&& 0x7)

/-- Embeds `svm_handle_cr` (CR0 selective-write emulation).  The returned
`Bool` is the C `ok` result; `false` is the fatal path. -/
def svm_handle_cr (env : Env) (regs : Regs) (st : PerCpu) : PerCpu × Bool :=
  let v := st.vmcb
  let reg? : Option Nat :=
    if env.has_assists then
      if v.exitinfo1 &&& (1 <<< 63) = 0 then none
      else some (v.exitinfo1 &&& 0x07)
    else
      x86_parse_mov_to_cr env v v.rip 0
  reg?.elim (st, false) fun reg =>
    let val := if reg = 4 then v.rsp else regs.idx (15 - reg)
    let st1 := vcpu_skip_emulated_instruction X86_INST_LEN_MOV_TO_CR st
    let bits := X86_CR0_PG ||| X86_CR0_WP ||| X86_CR0_CD ||| X86_CR0_NW
    let st2 := if (val ^^^ v.cr0) &&& bits ≠ 0 then vcpu_tlb_flush env st1
               else st1
    let st3 := { st2 with
      vmcb := { st2.vmcb with cr0 := val &&& SVM_CR0_ALLOWED_BITS } }
    let st4 := if val &&& X86_CR0_PG ≠ 0 then update_efer env st3 else st3
    let st5 := { st4 with
      vmcb := { st4.vmcb with
        clean_bits := st4.vmcb.clean_bits &&& (0xffffffff ^^^ CLEAN_BITS_CRX) } }
    (st5, true)

/-- Embeds `svm_handle_msr_read`.  The x2APIC emulator may write the result
registers, hence the returned `Regs`. -/
def svm_handle_msr_read (env : Env) (regs : Regs) (st : PerCpu) :
    PerCpu × Regs × Bool :=
  if MSR_X2APIC_BASE ≤ regs.rcx ∧ regs.rcx ≤ MSR_X2APIC_END then
    let st1 := vcpu_skip_emulated_instruction X86_INST_LEN_RDMSR st
    (st1, env.x2apic_read regs, true)
  else
    (st, regs, false)

/-- Embeds `svm_handle_msr_write`, including the common exit path that
advances past the instruction exactly when the write was handled. -/
def svm_handle_msr_write (env : Env) (regs : Regs) (st : PerCpu) :
    PerCpu × Bool :=
  let out := fun (st' : PerCpu) (result : Bool) =>
    if result then (vcpu_skip_emulated_instruction X86_INST_LEN_WRMSR st',
                    result)
    else (st', result)
  if MSR_X2APIC_BASE ≤ regs.rcx ∧ regs.rcx ≤ MSR_X2APIC_END then
    out st (env.x2apic_write regs)
  else if regs.rcx = MSR_EFER then
    let efer := ((regs.rax &&& 0xffffffff) ||| (regs.rdx <<< 32) % 2 ^ 64) |||
                EFER_SVME
    let st1 := if (efer ^^^ st.vmcb.efer) &&& (EFER_LME ||| EFER_NXE) ≠ 0 then
                 vcpu_tlb_flush env st
               else st
    let st2 := { st1 with
      vmcb := { st1.vmcb with
        efer := efer,
        clean_bits := st1.vmcb.clean_bits &&& (0xffffffff ^^^ CLEAN_BITS_CRX) } }
    out st2 true
  else if regs.rcx = MTRR_DEFTYPE then
    let val := (regs.rax &&& 0xffffffff) ||| (regs.rdx <<< 32) % 2 ^ 64
    let st1 := { st with
      host_pat := if val &&& 0x800 ≠ 0 then PAT_RESET_VALUE else 0 }
    out st1 true
  else
    out st false

/-- Embeds `svm_handle_apic_access` (non-accelerated xAPIC page access). -/
def svm_handle_apic_access (env : Env) (regs : Regs) (st : PerCpu) :
    PerCpu × Regs × Bool :=
  let v := st.vmcb
  let is_write := v.exitinfo1 &&& 0x2 ≠ 0
  let offset := (v.exitinfo2 + (2 ^ 64 - XAPIC_BASE)) % 2 ^ 64
  if offset &&& 0x00f ≠ 0 then (st, regs, false)
  else
    (vcpu_get_guest_paging_structs v).elim (st, regs, false) fun pg_structs =>
      let ir := env.apic_mmio regs v.rip pg_structs (offset >>> 4) is_write
      if ir.1 = 0 then (st, ir.2, false)
      else (vcpu_skip_emulated_instruction ir.1 st, ir.2, true)

/-- Embeds `svm_vcpu_reset` on the carried control-block subset, including
the `svm_set_cell_config` reload of the nested-paging root. -/
def svm_vcpu_reset (env : Env) (st : PerCpu) (sipi_vector : Nat) : PerCpu :=
  let val := if sipi_vector = APIC_BSP_PSEUDO_SIPI then 0xfff0 else 0
  let vec := if sipi_vector = APIC_BSP_PSEUDO_SIPI then 0xf0 else sipi_vector
  { st with
    vmcb := { st.vmcb with
      cr0 := X86_CR0_NW ||| X86_CR0_CD ||| X86_CR0_ET,
      cr3 := 0,
      cr4 := 0,
      rflags := 0x02,
      rip := val,
      rsp := 0,
      cs_selector := vec <<< 8,
      cs_base := vec <<< 12,
      cs_limit := 0xffff,
      cs_access_rights := 0x009b,
      efer := EFER_SVME,
      g_pat := PAT_RESET_VALUE,
      clean_bits := 0,
      n_cr3 := env.cell_npt_root } }

/-- Embeds `vcpu_vendor_get_execution_state`. -/
def vcpu_vendor_get_execution_state (st : PerCpu) : VcpuExecutionState :=
  { efer := st.vmcb.efer, rflags := st.vmcb.rflags,
    cs := st.vmcb.cs_selector, rip := st.vmcb.rip }

/-- Embeds `svm_get_vcpu_pf_intercept`. -/
def svm_get_vcpu_pf_intercept (st : PerCpu) : VcpuPfIntercept :=
  { phys_addr := st.vmcb.exitinfo2, is_write := st.vmcb.exitinfo1 &&& 0x2 ≠ 0 }

/-- Embeds `svm_get_vcpu_io_intercept` (APM 15.10.2 exit-information
decode). -/
def svm_get_vcpu_io_intercept (st : PerCpu) : VcpuIoIntercept :=
  let exitinfo := st.vmcb.exitinfo1
  { port := (exitinfo >>> 16) &&& 0xffff,
    size := (exitinfo >>> 4) &&& 0x7,
    is_in := exitinfo &&& 0x1 ≠ 0,
    inst_len := (st.vmcb.exitinfo2 + (2 ^ 64 - st.vmcb.rip % 2 ^ 64)) % 2 ^ 64,
    rep_or_str := exitinfo &&& 0x0c ≠ 0 }

/-- Embeds `vcpu_handle_exit`, the VM-exit dispatcher.  The result flag is
`true` when the branch returns (the guest is resumed) and `false` on every
path that falls through to `dump_guest_regs` / `panic_park`. -/
def vcpu_handle_exit (env : Env) (regs : Regs) (st : PerCpu) :
    PerCpu × Regs × Bool :=
  let st := { st with gs_base := env.cpu_data_addr }
  let st := { st with
    stats := { st.stats with total := st.stats.total + 1 },
    vmcb := { st.vmcb with clean_bits := 0xffffffff } }
  let v := st.vmcb
  if v.exitcode = VMEXIT_INVALID then
    (st, regs, false)
  else if v.exitcode = VMEXIT_NMI then
    let st := { st with
      stats := { st.stats with management := st.stats.management + 1 } }
    if 0 ≤ env.events then
      (svm_vcpu_reset env st env.events.toNat, zeroRegs, true)
    else
      (st, regs, true)
  else if v.exitcode = VMEXIT_CPUID then
    (st, regs, true)
  else if v.exitcode = VMEXIT_VMMCALL then
    (st, env.hypercall regs (vcpu_vendor_get_execution_state st), true)
  else if v.exitcode = VMEXIT_CR0_SEL_WRITE then
    let st := { st with stats := { st.stats with cr := st.stats.cr + 1 } }
    let r := svm_handle_cr env regs st
    (r.1, regs, r.2)
  else if v.exitcode = VMEXIT_MSR then
    let st := { st with stats := { st.stats with msr := st.stats.msr + 1 } }
    if v.exitinfo1 = 0 then
      svm_handle_msr_read env regs st
    else
      let r := svm_handle_msr_write env regs st
      (r.1, regs, r.2)
  else if v.exitcode = VMEXIT_NPF then
    if v.exitinfo1 &&& 0x7 = 0x7 ∧ XAPIC_BASE ≤ v.exitinfo2 ∧
       v.exitinfo2 < XAPIC_BASE + PAGE_SIZE then
      let st := { st with
        stats := { st.stats with xapic := st.stats.xapic + 1 } }
      svm_handle_apic_access env regs st
    else
      let st := { st with
        stats := { st.stats with mmio := st.stats.mmio + 1 } }
      let r := env.pt_violation regs (svm_get_vcpu_pf_intercept st)
      (st, r.2, r.1)
  else if v.exitcode = VMEXIT_XSETBV then
    let st := { st with
      stats := { st.stats with xsetbv := st.stats.xsetbv + 1 } }
    if regs.rax &&& X86_XCR0_FP ≠ 0 ∧
       regs.rax &&& (0xffffffff ^^^ (env.xcr0_supported &&& 0xffffffff)) = 0 ∧
       regs.rcx = 0 ∧ regs.rdx = 0 then
      let st := vcpu_skip_emulated_instruction X86_INST_LEN_XSETBV st
      ({ st with host_xcr0 := regs.rax }, regs, true)
    else
      (st, regs, false)
  else if v.exitcode = VMEXIT_IOIO then
    let st := { st with stats := { st.stats with pio := st.stats.pio + 1 } }
    let r := env.io_access regs (svm_get_vcpu_io_intercept st)
    (st, r.2, r.1)
  else
    (st, regs, false)

/-! ### Per-CPU virtualization enable state (`vcpu_exit`) -/

/-- Mirrors `enum {SVMOFF = 0, SVMON}`. -/
inductive SvmOnOff where
  | SVMOFF
  | SVMON
deriving Repr, DecidableEq

/-- Host-side per-CPU state touched by `vcpu_exit`: the `svm_state` flag,
the host extended-feature-enable register, the host-save-area pointer MSR,
and the global interrupt flag set by `stgi`. -/
structure SvmHostState where
  svm_state : SvmOnOff
  efer : Nat
  vm_hsave_pa : Nat
  gif : Bool
deriving Repr, DecidableEq

/-- Embeds `vcpu_exit` (disable virtualization on this CPU). -/
def vcpu_exit (h : SvmHostState) : SvmHostState :=
  if h.svm_state = SvmOnOff.SVMOFF then h
  else
    { svm_state := SvmOnOff.SVMOFF,
      gif := true,
      efer := h.efer &&& (2 ^ 64 - 1 - EFER_SVME),
      vm_hsave_pa := 0 }

/-! ### Second-level mapping (`vcpu_map_memory_region`) -/

/-- Modelled from the spec: a cell's second-level address space, the
translation structure built by `paging_create` and walked read-only by
translation queries (the page-table walker itself lives in `paging.c`,
outside the given sources).  It maps a guest-physical address to the
host-physical address and the permission flags of the entry covering it,
or `none` where nothing is mapped. -/
def NptSpace := Nat → Option (Nat × Nat)

/-- Modelled from the spec: `paging_create(structs, phys, size, virt,
flags, ...)` makes `[virt, virt + size)` translate to
`[phys, phys + size)` with the given entry flags, leaving all other
addresses as they were. -/
def paging_create (s : NptSpace) (phys : Nat) (size : Nat) (virt : Nat)
    (flags : Nat) : NptSpace :=
  fun g =>
    if virt ≤ g ∧ g < virt + size then some (phys + (g - virt), flags)
    else s g

/-- Modelled from the spec: the read-only translation query over the same
structure. -/
def paging_virt2phys (s : NptSpace) (gphys : Nat) : Option (Nat × Nat) :=
  s gphys

/-- Mirrors `struct jailhouse_memory`. -/
structure JailhouseMemory where
  phys_start : Nat
  virt_start : Nat
  size : Nat
  flags : Nat
deriving Repr, DecidableEq

/-- Embeds `vcpu_map_memory_region`: permission-flag translation and the
communication-region redirect, then `paging_create`. -/
def vcpu_map_memory_region (comm_page_phys : Nat) (s : NptSpace)
    (mem : JailhouseMemory) : NptSpace :=
  let phys_start := mem.phys_start
  let flags := PAGE_FLAG_US
  let flags := if mem.flags &&& JAILHOUSE_MEM_READ ≠ 0 then
                 flags ||| PAGE_FLAG_PRESENT else flags
  let flags := if mem.flags &&& JAILHOUSE_MEM_WRITE ≠ 0 then
                 flags ||| PAGE_FLAG_RW else flags
  let flags := if mem.flags &&& JAILHOUSE_MEM_EXECUTE = 0 then
                 flags ||| PAGE_FLAG_NOEXECUTE else flags
  let phys_start := if mem.flags &&& JAILHOUSE_MEM_COMM_REGION ≠ 0 then
                      comm_page_phys else phys_start
  paging_create s phys_start mem.size mem.virt_start flags

/-! ### Driver statistics reader (`driver/sysfs.c`) -/

/-- The C conversion of the hypercall return value to `int value`
(truncation to the low 32 bits, read back as two's complement). -/
def cIntOfLong (z : Int) : Int :=
  (z + 2 ^ 31) % 2 ^ 32 - 2 ^ 31

/-- Embeds `stats_show`: iterate over the cell's assigned CPUs, query the
per-CPU information hypercall (`hc`), and accumulate only positive values
into the `unsigned long` sum. -/
def stats_show (cpus : List Nat) (hc : Nat → Int) : Nat :=
  cpus.foldl
    (fun sum cpu =>
      let value := cIntOfLong (hc cpu)
      if 0 < value then (sum + value.toNat) % 2 ^ 64 else sum)
    0

/-! ### Concrete inputs used by witnesses and counterexamples -/

/-- Default collaborator environment: decode assists present, no
flush-by-ASID, no pending platform event, handlers that succeed without
touching registers, no mappable guest memory. -/
def env0 : Env :=
  { cpu_data_addr := 0xfeed0000,
    has_assists := true,
    has_flush_by_asid := false,
    cell_npt_root := 0x5000,
    xcr0_supported := 0x7,
    events := -1,
    x2apic_read := fun r => r,
    x2apic_write := fun _ => true,
    hypercall := fun r _ => r,
    apic_mmio := fun r _ _ _ _ => (3, r),
    io_access := fun r _ => (true, r),
    pt_violation := fun r _ => (true, r),
    guest_mem := fun _ _ => none }

def vmcb0 : Vmcb :=
  { exitcode := 0, exitinfo1 := 0, exitinfo2 := 0, rip := 0x1000, rsp := 0,
    rflags := 0x02, cr0 := 0, cr3 := 0, cr4 := 0, efer := EFER_SVME,
    cs_selector := 0, cs_base := 0, cs_limit := 0xffff,
    cs_access_rights := 0x9b, g_pat := PAT_RESET_VALUE, clean_bits := 0,
    tlb_control := 0, n_cr3 := 0x5000 }

def stats0 : Stats :=
  { total := 0, mmio := 0, management := 0, hypercall := 0, pio := 0,
    xapic := 0, cr := 0, msr := 0, cpuid := 0, xsetbv := 0 }

def cpu0 : PerCpu :=
  { vmcb := vmcb0, stats := stats0, gs_base := 0, host_pat := PAT_RESET_VALUE,
    host_xcr0 := 1, flushes := 0 }

/-- Instruction byte stream used by the decode-helper witness:
`0f 22 da` (`mov %rdx, %cr3` encoding pattern: dest CR index 3,
source GPR index 2). -/
def streamW : Nat → Nat :=
  fun i => if i = 0 then 0x0f else if i = 1 then 0x22 else 0xda

/-- Environment whose guest memory holds `streamW` at address `0x1000`. -/
def envW : Env :=
  { env0 with guest_mem := fun _ a => if a = 0x1000 then some streamW else none }

/-- Control block in long mode with the instruction pointer at `0x1000`. -/
def vmcbLong : Vmcb :=
  { vmcb0 with efer := EFER_SVME ||| EFER_LMA, rip := 0x1000 }

/-- CR0-write scenario A: decode-assist exit writing `0x80000011`
(paging-enable toggles on) while the stored CR0 is `0x11` and the stored
EFER has long-mode-enable set but long-mode-active clear. -/
def crStA : PerCpu :=
  { cpu0 with
    vmcb := { vmcb0 with exitinfo1 := 1 <<< 63, cr0 := 0x11, efer := 0x1100 } }

def crRegsA : Regs := { zeroRegs with rax := 0x80000011 }

/-- CR0-write scenario B: the written value equals the stored CR0 (no
flush-relevant bit differs), stored EFER as in scenario A. -/
def crStB : PerCpu :=
  { cpu0 with
    vmcb := { vmcb0 with
              exitinfo1 := 1 <<< 63
              cr0 := 0x80000011
              efer := 0x1100 } }

def crRegsB : Regs := { zeroRegs with rax := 0x80000011 }

/-! ### Claim theorems -/

/-- Claim C10: disabling virtualization on a CPU is idempotent — if the
per-CPU virtualization state is already off, `vcpu_exit` returns without
modifying the extended-feature-enable register, the host-save-area pointer
MSR, or any per-CPU state, so calling it twice equals calling it once. -/
theorem vcpu_exit_idempotent (h : SvmHostState) :
    vcpu_exit (vcpu_exit h) = vcpu_exit h ∧
    (h.svm_state = SvmOnOff.SVMOFF → vcpu_exit h = h) := by
  constructor
  · by_cases hs : h.svm_state = SvmOnOff.SVMOFF <;> simp [vcpu_exit, hs]
  · intro hs
    simp [vcpu_exit, hs]

/-- Witness for C10 at a concrete already-off host state. -/
theorem vcpu_exit_idempotent_witness :
    vcpu_exit (vcpu_exit { svm_state := SvmOnOff.SVMOFF, efer := 0x1100,
                           vm_hsave_pa := 0x7000, gif := false }) =
      vcpu_exit { svm_state := SvmOnOff.SVMOFF, efer := 0x1100,
                  vm_hsave_pa := 0x7000, gif := false } ∧
    (({ svm_state := SvmOnOff.SVMOFF, efer := 0x1100, vm_hsave_pa := 0x7000,
        gif := false } : SvmHostState).svm_state = SvmOnOff.SVMOFF →
      vcpu_exit { svm_state := SvmOnOff.SVMOFF, efer := 0x1100,
                  vm_hsave_pa := 0x7000, gif := false } =
        { svm_state := SvmOnOff.SVMOFF, efer := 0x1100, vm_hsave_pa := 0x7000,
          gif := false }) :=
  vcpu_exit_idempotent
    { svm_state := SvmOnOff.SVMOFF, efer := 0x1100, vm_hsave_pa := 0x7000,
      gif := false }

/-- Truncation to `int` is the identity on the signed 32-bit range. -/
theorem cIntOfLong_eq_self (z : Int) (hl : -2 ^ 31 ≤ z) (hr : z < 2 ^ 31) :
    cIntOfLong z = z := by
  unfold cIntOfLong
  rw [Int.emod_eq_of_lt (by omega) (by omega)]
  omega

/-- Claim C8: in the driver's per-cell statistics read, an assigned CPU
whose per-CPU information hypercall returns zero or a negative (error)
value contributes nothing to the reported sum; the read still succeeds,
reporting the sum over the other CPUs. -/
theorem stats_show_skips_nonpositive (hc : Nat → Int) (l1 l2 : List Nat)
    (cpu : Nat) (h1 : -2 ^ 31 ≤ hc cpu) (h2 : hc cpu ≤ 0) :
    stats_show (l1 ++ cpu :: l2) hc = stats_show (l1 ++ l2) hc := by
  have hv : cIntOfLong (hc cpu) = hc cpu := cIntOfLong_eq_self _ h1 (by omega)
  unfold stats_show
  rw [List.foldl_append, List.foldl_append, List.foldl_cons]
  congr 1
  simp only [hv]
  rw [if_neg (by omega)]

/-- Witness for C8: the CPU reporting `-22` (an error) adds nothing. -/
theorem stats_show_skips_nonpositive_witness :
    stats_show ([5] ++ 3 :: [7]) (fun c => if c = 3 then -22 else 4) =
      stats_show ([5] ++ [7]) (fun c => if c = 3 then -22 else 4) :=
  stats_show_skips_nonpositive (fun c => if c = 3 then -22 else 4) [5] [7] 3
    (by decide) (by decide)


/-- Single-bit mask test, negative form. -/
theorem land_two_pow_eq_zero_iff (n k : Nat) :
    n &&& 2 ^ k = 0 ↔ n.testBit k = false := by
  constructor
  · intro h
    by_contra hb
    rw [Bool.not_eq_false] at hb
    exact (land_two_pow_ne_zero_iff n k).mpr hb h
  · intro h
    apply Nat.eq_of_testBit_eq
    intro i
    simp only [Nat.testBit_and, Nat.zero_testBit]
    rcases eq_or_ne i k with rfl | hik
    · simp [h]
    · simp [Nat.testBit_two_pow_of_ne (Ne.symm hik)]

/-- Claim C4: for every memory-region mapping call (outside the
communication-region redirect) and every r/w/x permission combination, the
created second-level entry has the hardware present bit iff read was
requested, the writable bit iff write was requested, the no-execute bit
iff execute was not requested, and the user bit unconditionally; a
translation query over the mapped range returns the corresponding
host-physical address with that permission encoding. -/
theorem vcpu_map_memory_region_perms (comm : Nat) (s : NptSpace)
    (mem : JailhouseMemory) (g : Nat)
    (hcomm : mem.flags &&& JAILHOUSE_MEM_COMM_REGION = 0)
    (hlo : mem.virt_start ≤ g) (hhi : g < mem.virt_start + mem.size) :
    ∃ fl,
      paging_virt2phys (vcpu_map_memory_region comm s mem) g =
        some (mem.phys_start + (g - mem.virt_start), fl) ∧
      fl.testBit 0 = mem.flags.testBit 0 ∧
      fl.testBit 1 = mem.flags.testBit 1 ∧
      fl.testBit 63 = !mem.flags.testBit 2 ∧
      fl.testBit 2 = true := by
  have cR : (mem.flags &&& JAILHOUSE_MEM_READ ≠ 0) = (mem.flags.testBit 0 = true) :=
    propext (by rw [show JAILHOUSE_MEM_READ = 2 ^ 0 from rfl]
                exact land_two_pow_ne_zero_iff _ _)
  have cW : (mem.flags &&& JAILHOUSE_MEM_WRITE ≠ 0) = (mem.flags.testBit 1 = true) :=
    propext (by rw [show JAILHOUSE_MEM_WRITE = 2 ^ 1 from rfl]
                exact land_two_pow_ne_zero_iff _ _)
  have cX : (mem.flags &&& JAILHOUSE_MEM_EXECUTE = 0) = (mem.flags.testBit 2 = false) :=
    propext (by rw [show JAILHOUSE_MEM_EXECUTE = 2 ^ 2 from rfl]
                exact land_two_pow_eq_zero_iff _ _)
  simp only [vcpu_map_memory_region, paging_virt2phys, paging_create]
  rw [if_neg (not_not_intro hcomm), if_pos ⟨hlo, hhi⟩]
  refine ⟨_, rfl, ?_, ?_, ?_, ?_⟩ <;>
    cases hbr : mem.flags.testBit 0 <;> cases hbw : mem.flags.testBit 1 <;>
      cases hbx : mem.flags.testBit 2 <;>
        simp only [cR, cW, cX, hbr, hbw, hbx, if_true, if_false] <;> decide

/-- Witness for C4: the spec scenario — region guest-physical `0x1000`,
host-physical `0x2000`, length `0x1000`, read+write — queried at `0x1500`
yields host-physical `0x2500`, present and writable but not executable,
user set. -/
theorem vcpu_map_memory_region_perms_witness :
    (({ phys_start := 0x2000, virt_start := 0x1000, size := 0x1000,
        flags := 0x3 } : JailhouseMemory).flags &&&
      JAILHOUSE_MEM_COMM_REGION = 0) ∧
    ∃ fl,
      paging_virt2phys
          (vcpu_map_memory_region 0 (fun _ => none)
            { phys_start := 0x2000, virt_start := 0x1000, size := 0x1000,
              flags := 0x3 }) 0x1500 =
        some (0x2000 + (0x1500 - 0x1000), fl) ∧
      fl.testBit 0 = Nat.testBit 0x3 0 ∧
      fl.testBit 1 = Nat.testBit 0x3 1 ∧
      fl.testBit 63 = !Nat.testBit 0x3 2 ∧
      fl.testBit 2 = true :=
  ⟨by decide,
   vcpu_map_memory_region_perms 0 (fun _ => none)
     { phys_start := 0x2000, virt_start := 0x1000, size := 0x1000,
       flags := 0x3 } 0x1500 (by decide) (by decide) (by decide)⟩

/-- Claim C5 (amended): the guest paging-mode classification yields exactly
one of three modes, in priority order — long mode when the long-mode-active
bit is set, with the root taken from CR3 masked to bits 12..51 (the low 52
bits with the low 12 page-offset/flag bits cleared); legacy paged mode when
paging is enabled and physical-address extension is clear; unpaged mode
(fixed root `0xff000`) when paging is disabled — and fails for the one
remaining combination (no long mode, paging enabled, extension set). -/
theorem vcpu_get_guest_paging_structs_spec (v : Vmcb) :
    (v.efer &&& EFER_LMA ≠ 0 →
      vcpu_get_guest_paging_structs v =
        some { root_paging := RootPaging.x86_64,
               root_table_gphys := v.cr3 &&& 0x000ffffffffff000 }) ∧
    (v.efer &&& EFER_LMA = 0 → v.cr0 &&& X86_CR0_PG ≠ 0 →
      v.cr4 &&& X86_CR4_PAE = 0 →
      vcpu_get_guest_paging_structs v =
        some { root_paging := RootPaging.i386,
               root_table_gphys := v.cr3 &&& 0xfffff000 }) ∧
    (v.efer &&& EFER_LMA = 0 → v.cr0 &&& X86_CR0_PG = 0 →
      vcpu_get_guest_paging_structs v =
        some { root_paging := RootPaging.realmode,
               root_table_gphys := 0xff000 }) ∧
    (v.efer &&& EFER_LMA = 0 → v.cr0 &&& X86_CR0_PG ≠ 0 →
      v.cr4 &&& X86_CR4_PAE ≠ 0 →
      vcpu_get_guest_paging_structs v = none) := by
  refine ⟨?_, ?_, ?_, ?_⟩
  · intro hlma
    simp [vcpu_get_guest_paging_structs, hlma]
  · intro hlma hpg hpae
    simp [vcpu_get_guest_paging_structs, hlma, hpg, hpae]
  · intro hlma hpg
    simp [vcpu_get_guest_paging_structs, hlma, hpg]
  · intro hlma hpg hpae
    simp [vcpu_get_guest_paging_structs, hlma, hpg, hpae]

/-- Witness for C5 in all four regimes: long mode at CR3 `0x1000`, legacy
paged mode, unpaged mode, and the unsupported combination. -/
theorem vcpu_get_guest_paging_structs_spec_witness :
    vcpu_get_guest_paging_structs
        { vmcb0 with efer := EFER_SVME ||| EFER_LMA, cr3 := 0x1000 } =
      some { root_paging := RootPaging.x86_64, root_table_gphys := 0x1000 } ∧
    vcpu_get_guest_paging_structs
        { vmcb0 with cr0 := X86_CR0_PG ||| X86_CR0_PE, cr3 := 0x2000 } =
      some { root_paging := RootPaging.i386, root_table_gphys := 0x2000 } ∧
    vcpu_get_guest_paging_structs { vmcb0 with cr0 := X86_CR0_PE } =
      some { root_paging := RootPaging.realmode, root_table_gphys := 0xff000 } ∧
    vcpu_get_guest_paging_structs
        { vmcb0 with cr0 := X86_CR0_PG, cr4 := X86_CR4_PAE } = none := by
  refine ⟨?_, ?_, ?_, ?_⟩
  · have h := (vcpu_get_guest_paging_structs_spec
      { vmcb0 with efer := EFER_SVME ||| EFER_LMA, cr3 := 0x1000 }).1
      (by decide)
    rw [h]
    decide
  · have h := (vcpu_get_guest_paging_structs_spec
      { vmcb0 with cr0 := X86_CR0_PG ||| X86_CR0_PE, cr3 := 0x2000 }).2.1
      (by decide) (by decide) (by decide)
    rw [h]
    decide
  · exact (vcpu_get_guest_paging_structs_spec
      { vmcb0 with cr0 := X86_CR0_PE }).2.2.1 (by decide) (by decide)
  · exact (vcpu_get_guest_paging_structs_spec
      { vmcb0 with cr0 := X86_CR0_PG, cr4 := X86_CR4_PAE }).2.2.2
      (by decide) (by decide) (by decide)

/-- Counterexample to C5 as stated: in long mode the stored root is not
the low 52 bits of CR3 — with CR3 = `0xfff` the low 52 bits are `0xfff`,
but the classification stores root `0` (the low 12 page-offset/flag bits
are cleared by the mask `0x000ffffffffff000`). -/
theorem vcpu_get_guest_paging_structs_cr3_counterexample :
    vcpu_get_guest_paging_structs
        { vmcb0 with efer := EFER_SVME ||| EFER_LMA, cr3 := 0xfff } =
      some { root_paging := RootPaging.x86_64, root_table_gphys := 0 } ∧
    (0xfff : Nat) &&& (2 ^ 52 - 1) = 0xfff ∧
    (0 : Nat) ≠ 0xfff := by
  refine ⟨by decide, by decide, by decide⟩

/-- Claim C1: an intercepted MSR write targeting EFER stores the
guest-supplied 64-bit value EDX:EAX with the SVME bit forced set (bit 12
of the stored value is set no matter what the guest wrote), and signals a
translation-cache flush exactly when the long-mode-enable (bit 8) or
no-execute-enable (bit 11) bit toggles relative to the previously stored
value. -/
theorem svm_handle_msr_write_efer (env : Env) (regs : Regs) (st : PerCpu)
    (hrcx : regs.rcx = MSR_EFER) :
    (svm_handle_msr_write env regs st).2 = true ∧
    (svm_handle_msr_write env regs st).1.vmcb.efer =
      ((regs.rax &&& 0xffffffff) ||| ((regs.rdx &&& 0xffffffff) <<< 32)) |||
        EFER_SVME ∧
    ((svm_handle_msr_write env regs st).1.vmcb.efer).testBit 12 = true ∧
    (svm_handle_msr_write env regs st).1.flushes = st.flushes +
      (if (((regs.rax &&& 0xffffffff) ||| ((regs.rdx &&& 0xffffffff) <<< 32))
             ||| EFER_SVME).testBit 8 ≠ st.vmcb.efer.testBit 8 ∨
          (((regs.rax &&& 0xffffffff) ||| ((regs.rdx &&& 0xffffffff) <<< 32))
             ||| EFER_SVME).testBit 11 ≠ st.vmcb.efer.testBit 11
       then 1 else 0) := by
  have hx2 : ¬(MSR_X2APIC_BASE ≤ regs.rcx ∧ regs.rcx ≤ MSR_X2APIC_END) := by
    rw [hrcx]
    decide
  have hE : ((regs.rax &&& 0xffffffff) ||| (regs.rdx <<< 32) % 2 ^ 64) |||
      EFER_SVME =
      ((regs.rax &&& 0xffffffff) ||| ((regs.rdx &&& 0xffffffff) <<< 32)) |||
        EFER_SVME := by
    rw [shiftLeft32_mod_pow64]
  have hsvme : (((regs.rax &&& 0xffffffff) |||
      ((regs.rdx &&& 0xffffffff) <<< 32)) ||| EFER_SVME).testBit 12 = true := by
    rw [Nat.testBit_or]
    simp [show Nat.testBit EFER_SVME 12 = true from by decide]
  simp only [svm_handle_msr_write]
  rw [if_neg hx2, if_pos hrcx, hE]
  by_cases hf : ((((regs.rax &&& 0xffffffff) |||
      ((regs.rdx &&& 0xffffffff) <<< 32)) ||| EFER_SVME) ^^^ st.vmcb.efer) &&&
        (EFER_LME ||| EFER_NXE) ≠ 0
  · rw [if_pos hf, if_pos ((efer_toggle_iff _ _).mp hf)]
    refine ⟨rfl, ?_, ?_, ?_⟩ <;>
      simp [vcpu_skip_emulated_instruction, vcpu_tlb_flush, hsvme]
  · rw [if_neg hf, if_neg (fun h => hf ((efer_toggle_iff _ _).mpr h))]
    refine ⟨rfl, ?_, ?_, ?_⟩ <;>
      simp [vcpu_skip_emulated_instruction, hsvme]

/-- Witness for C1: writing EDX:EAX = 0 (virtualization-enable bit
cleared by the guest) still stores a value with bit 12 set. -/
theorem svm_handle_msr_write_efer_witness :
    (svm_handle_msr_write env0 { zeroRegs with rcx := MSR_EFER }
        cpu0).1.vmcb.efer.testBit 12 = true ∧
    (svm_handle_msr_write env0 { zeroRegs with rcx := MSR_EFER }
        cpu0).1.vmcb.efer =
      ((({ zeroRegs with rcx := MSR_EFER } : Regs).rax &&& 0xffffffff) |||
        ((({ zeroRegs with rcx := MSR_EFER } : Regs).rdx &&& 0xffffffff) <<<
          32)) ||| EFER_SVME :=
  ⟨(svm_handle_msr_write_efer env0 { zeroRegs with rcx := MSR_EFER } cpu0
      rfl).2.2.1,
   (svm_handle_msr_write_efer env0 { zeroRegs with rcx := MSR_EFER } cpu0
      rfl).2.1⟩

/-- Inside `update_efer`, when the long-mode-enable/active pair is exactly
"enable set, active clear", setting the active bit always toggles it, so
the flush condition fires. -/
theorem update_efer_flush_fires (efer : Nat)
    (h : efer &&& (EFER_LME ||| EFER_LMA) = EFER_LME) :
    (efer ^^^ (efer ||| EFER_LMA)) &&& EFER_LMA ≠ 0 := by
  have h10 : efer.testBit 10 = false := by
    have := congrArg (fun x => Nat.testBit x 10) h
    simp only [Nat.testBit_and] at this
    rw [show Nat.testBit (EFER_LME ||| EFER_LMA) 10 = true from by decide,
      show Nat.testBit EFER_LME 10 = false from by decide,
      Bool.and_true] at this
    exact this
  rw [show EFER_LMA = 2 ^ 10 from rfl, Ne, land_two_pow_eq_zero_iff]
  have hb : Nat.testBit 1024 10 = true := by decide
  simp [Nat.testBit_xor, Nat.testBit_or, h10, hb]

/-- Claim C3 (amended): a successfully decoded CR0 write (decode-assist
path) succeeds and stores the new value masked by the allowed-bits mask
(the not-write-through bit 29 kept clear); it signals one
translation-cache flush when any of the paging-enable/write-protect/
cache-disable/not-write-through bits differs from the current CR0, plus
one more flush from the long-mode re-evaluation exactly when the new value
has paging-enable set while the stored EFER has long-mode-enable set and
long-mode-active clear (in which case the long-mode-active bit is also set
in the stored EFER).  So a write toggling the paging-enable bit signals
exactly one flush unless it simultaneously activates long mode (then two),
and a write changing no flush-relevant bit signals none unless it
activates long mode. -/
theorem svm_handle_cr_spec (env : Env) (regs : Regs) (st : PerCpu)
    (reg val : Nat)
    (hassist : env.has_assists = true)
    (hdec : st.vmcb.exitinfo1 &&& (1 <<< 63) ≠ 0)
    (hreg : reg = st.vmcb.exitinfo1 &&& 0x07)
    (hval : val = if reg = 4 then st.vmcb.rsp else regs.idx (15 - reg)) :
    (svm_handle_cr env regs st).2 = true ∧
    (svm_handle_cr env regs st).1.vmcb.cr0 = val &&& SVM_CR0_ALLOWED_BITS ∧
    ((svm_handle_cr env regs st).1.vmcb.cr0).testBit 29 = false ∧
    (svm_handle_cr env regs st).1.flushes = st.flushes +
      ((if val.testBit 31 ≠ st.vmcb.cr0.testBit 31 ∨
            val.testBit 16 ≠ st.vmcb.cr0.testBit 16 ∨
            val.testBit 30 ≠ st.vmcb.cr0.testBit 30 ∨
            val.testBit 29 ≠ st.vmcb.cr0.testBit 29 then 1 else 0) +
       (if val &&& X86_CR0_PG ≠ 0 ∧
           st.vmcb.efer &&& (EFER_LME ||| EFER_LMA) = EFER_LME
        then 1 else 0)) ∧
    (svm_handle_cr env regs st).1.vmcb.efer =
      (if val &&& X86_CR0_PG ≠ 0 ∧
          st.vmcb.efer &&& (EFER_LME ||| EFER_LMA) = EFER_LME
       then st.vmcb.efer ||| EFER_LMA else st.vmcb.efer) := by
  have hnw : ∀ x : Nat, (x &&& SVM_CR0_ALLOWED_BITS).testBit 29 = false := by
    intro x
    rw [Nat.testBit_and,
      show Nat.testBit SVM_CR0_ALLOWED_BITS 29 = false from by decide]
    simp
  simp only [svm_handle_cr]
  rw [if_pos hassist, if_neg hdec]
  simp only [Option.elim_some]
  rw [← hreg, ← hval]
  by_cases hA : (val ^^^ st.vmcb.cr0) &&&
      (X86_CR0_PG ||| X86_CR0_WP ||| X86_CR0_CD ||| X86_CR0_NW) ≠ 0 <;>
    by_cases hB : val &&& X86_CR0_PG ≠ 0 <;>
      by_cases hC : st.vmcb.efer &&& (EFER_LME ||| EFER_LMA) = EFER_LME
  · have ht := (cr0_toggle_iff val st.vmcb.cr0).mp hA
    have hUF := update_efer_flush_fires st.vmcb.efer hC
    simp [hA, hB, hC, ht, hUF, hnw, update_efer, vcpu_tlb_flush,
      vcpu_skip_emulated_instruction]
  · have ht := (cr0_toggle_iff val st.vmcb.cr0).mp hA
    simp [hA, hB, hC, ht, hnw, update_efer, vcpu_tlb_flush,
      vcpu_skip_emulated_instruction]
  · have ht := (cr0_toggle_iff val st.vmcb.cr0).mp hA
    simp [hA, hB, hC, ht, hnw, update_efer, vcpu_tlb_flush,
      vcpu_skip_emulated_instruction]
  · have ht := (cr0_toggle_iff val st.vmcb.cr0).mp hA
    simp [hA, hB, hC, ht, hnw, update_efer, vcpu_tlb_flush,
      vcpu_skip_emulated_instruction]
  · have ht : ¬(val.testBit 31 ≠ st.vmcb.cr0.testBit 31 ∨
        val.testBit 16 ≠ st.vmcb.cr0.testBit 16 ∨
        val.testBit 30 ≠ st.vmcb.cr0.testBit 30 ∨
        val.testBit 29 ≠ st.vmcb.cr0.testBit 29) :=
      fun h => hA ((cr0_toggle_iff val st.vmcb.cr0).mpr h)
    have hUF := update_efer_flush_fires st.vmcb.efer hC
    push_neg at ht
    simp [hA, hB, hC, hUF, hnw, update_efer, vcpu_tlb_flush,
      vcpu_skip_emulated_instruction, ht.1, ht.2.1, ht.2.2.1, ht.2.2.2]
  · have ht : ¬(val.testBit 31 ≠ st.vmcb.cr0.testBit 31 ∨
        val.testBit 16 ≠ st.vmcb.cr0.testBit 16 ∨
        val.testBit 30 ≠ st.vmcb.cr0.testBit 30 ∨
        val.testBit 29 ≠ st.vmcb.cr0.testBit 29) :=
      fun h => hA ((cr0_toggle_iff val st.vmcb.cr0).mpr h)
    push_neg at ht
    simp [hA, hB, hC, hnw, update_efer, vcpu_tlb_flush,
      vcpu_skip_emulated_instruction, ht.1, ht.2.1, ht.2.2.1, ht.2.2.2]
  · have ht : ¬(val.testBit 31 ≠ st.vmcb.cr0.testBit 31 ∨
        val.testBit 16 ≠ st.vmcb.cr0.testBit 16 ∨
        val.testBit 30 ≠ st.vmcb.cr0.testBit 30 ∨
        val.testBit 29 ≠ st.vmcb.cr0.testBit 29) :=
      fun h => hA ((cr0_toggle_iff val st.vmcb.cr0).mpr h)
    push_neg at ht
    simp [hA, hB, hC, hnw, update_efer, vcpu_tlb_flush,
      vcpu_skip_emulated_instruction, ht.1, ht.2.1, ht.2.2.1, ht.2.2.2]
  · have ht : ¬(val.testBit 31 ≠ st.vmcb.cr0.testBit 31 ∨
        val.testBit 16 ≠ st.vmcb.cr0.testBit 16 ∨
        val.testBit 30 ≠ st.vmcb.cr0.testBit 30 ∨
        val.testBit 29 ≠ st.vmcb.cr0.testBit 29) :=
      fun h => hA ((cr0_toggle_iff val st.vmcb.cr0).mpr h)
    push_neg at ht
    simp [hA, hB, hC, hnw, update_efer, vcpu_tlb_flush,
      vcpu_skip_emulated_instruction, ht.1, ht.2.1, ht.2.2.1, ht.2.2.2]

/-- Witness for C3 (amended) at scenario A: decode succeeds and CR0 is
stored masked. -/
theorem svm_handle_cr_spec_witness :
    (svm_handle_cr env0 crRegsA crStA).2 = true ∧
    (svm_handle_cr env0 crRegsA crStA).1.vmcb.cr0 =
      (if (crStA.vmcb.exitinfo1 &&& 0x07) = 4 then crStA.vmcb.rsp
       else crRegsA.idx (15 - (crStA.vmcb.exitinfo1 &&& 0x07))) &&&
        SVM_CR0_ALLOWED_BITS :=
  ⟨(svm_handle_cr_spec env0 crRegsA crStA _ _ rfl (by decide) rfl rfl).1,
   (svm_handle_cr_spec env0 crRegsA crStA _ _ rfl (by decide) rfl rfl).2.1⟩

/-- Counterexample to C3 as stated.  Scenario B: the written value equals
the stored CR0, so no flush-relevant bit differs, yet one flush is
signalled (the long-mode re-evaluation sets the long-mode-active bit).
Scenario A: the write toggles only the paging-enable bit, and two flushes
are signalled, not exactly one. -/
theorem svm_handle_cr_flush_counterexample :
    ((crRegsB.rax ^^^ crStB.vmcb.cr0) &&&
        (X86_CR0_PG ||| X86_CR0_WP ||| X86_CR0_CD ||| X86_CR0_NW) = 0 ∧
      (svm_handle_cr env0 crRegsB crStB).1.flushes = 1 ∧ (1 : Nat) ≠ 0) ∧
    (((crRegsA.rax ^^^ crStA.vmcb.cr0) &&&
        (X86_CR0_PG ||| X86_CR0_WP ||| X86_CR0_CD ||| X86_CR0_NW) =
          X86_CR0_PG ∧
      (svm_handle_cr env0 crRegsA crStA).1.flushes = 2 ∧ (2 : Nat) ≠ 1)) := by
  refine ⟨⟨by decide, by decide, by decide⟩, by decide, by decide, by decide⟩

/-- Evaluation of the decoder when the first mapping succeeds: the
returned chunk covers at least one byte, `ctx.size` never returns to zero,
so all further `ctx_advance` calls are no-ops and the three bytes examined
are `stream 0`, `stream 1`, `stream 2` of the first mapping. -/
theorem x86_parse_mov_to_cr_run (env : Env) (v : Vmcb) (pc addr : Nat)
    (pgs : GuestPagingStructures) (stream : Nat → Nat) (reg : Nat)
    (hpg : vcpu_get_guest_paging_structs v = some pgs)
    (haddr : addr = (if v.efer &&& EFER_LMA ≠ 0 then 0 else v.cs_base) + pc)
    (hmem : env.guest_mem pgs addr = some stream) :
    x86_parse_mov_to_cr env v pc reg =
      if stream 0 ≠ 0x0f then none
      else if stream 1 ≠ 0x22 then none
      else if (stream 2 &&& 0x38) >>> 3 ≠ reg then none
      else some (stream 2 &&& 0x7) := by
  subst haddr
  have hlt : ((if v.efer &&& EFER_LMA ≠ 0 then 0 else v.cs_base) + pc) %
      PAGE_SIZE < PAGE_SIZE := Nat.mod_lt _ (by decide)
  have hp : PAGE_SIZE -
      ((if v.efer &&& EFER_LMA ≠ 0 then 0 else v.cs_base) + pc) % PAGE_SIZE
        ≠ 0 := by
    omega
  have hsz : min 2 (PAGE_SIZE -
      ((if v.efer &&& EFER_LMA ≠ 0 then 0 else v.cs_base) + pc) % PAGE_SIZE)
        ≠ 0 := by
    rw [show PAGE_SIZE = 4096 from rfl] at hp ⊢
    omega
  simp only [x86_parse_mov_to_cr, hpg, Option.some_bind, ctx_advance,
    vcpu_map_inst, hmem, ParseContext.next]
  simp only [ne_eq, ite_not] at hp hsz
  simp [hsz, hp]

/-- Claim C6: the move-to-control-register decode helper, on instruction
bytes `0f 22 modrm`, matches exactly the expected destination index (ModRM
bits 5:3) and returns the source register index (bits 2:0), for any ModRM
byte; it returns no match when the first byte is any other value (any
prefix byte or other opcode), when the second byte is not `0x22`, when the
expected destination differs, or when the needed guest page cannot be
mapped. -/
theorem x86_parse_mov_to_cr_spec (env : Env) (v : Vmcb) (pc addr : Nat)
    (pgs : GuestPagingStructures)
    (hpg : vcpu_get_guest_paging_structs v = some pgs)
    (haddr : addr = (if v.efer &&& EFER_LMA ≠ 0 then 0 else v.cs_base) + pc) :
    (∀ stream : Nat → Nat, env.guest_mem pgs addr = some stream →
      stream 0 = 0x0f → stream 1 = 0x22 →
      x86_parse_mov_to_cr env v pc ((stream 2 &&& 0x38) >>> 3) =
        some (stream 2 &&& 0x7)) ∧
    (∀ (stream : Nat → Nat) (reg : Nat),
      env.guest_mem pgs addr = some stream →
      stream 0 = 0x0f → stream 1 = 0x22 → (stream 2 &&& 0x38) >>> 3 ≠ reg →
      x86_parse_mov_to_cr env v pc reg = none) ∧
    (∀ (stream : Nat → Nat) (reg : Nat),
      env.guest_mem pgs addr = some stream → stream 0 ≠ 0x0f →
      x86_parse_mov_to_cr env v pc reg = none) ∧
    (∀ (stream : Nat → Nat) (reg : Nat),
      env.guest_mem pgs addr = some stream →
      stream 0 = 0x0f → stream 1 ≠ 0x22 →
      x86_parse_mov_to_cr env v pc reg = none) ∧
    (env.guest_mem pgs addr = none →
      ∀ reg, x86_parse_mov_to_cr env v pc reg = none) := by
  refine ⟨?_, ?_, ?_, ?_, ?_⟩
  · intro stream hmem h0 h1
    rw [x86_parse_mov_to_cr_run env v pc addr pgs stream _ hpg haddr hmem]
    rw [if_neg (not_not_intro h0), if_neg (not_not_intro h1),
      if_neg (fun h => h rfl)]
  · intro stream reg hmem h0 h1 hne
    rw [x86_parse_mov_to_cr_run env v pc addr pgs stream _ hpg haddr hmem]
    rw [if_neg (not_not_intro h0), if_neg (not_not_intro h1), if_pos hne]
  · intro stream reg hmem h0
    rw [x86_parse_mov_to_cr_run env v pc addr pgs stream _ hpg haddr hmem]
    rw [if_pos h0]
  · intro stream reg hmem h0 h1
    rw [x86_parse_mov_to_cr_run env v pc addr pgs stream _ hpg haddr hmem]
    rw [if_neg (not_not_intro h0), if_pos h1]
  · intro hnone reg
    subst haddr
    simp only [ne_eq, ite_not] at hnone
    simp [x86_parse_mov_to_cr, hpg, ctx_advance, vcpu_map_inst, hnone]

/-- Witness for C6: bytes `0f 22 da` at `0x1000` decode to destination
control-register index 3 and source general-purpose-register index 2. -/
theorem x86_parse_mov_to_cr_spec_witness :
    x86_parse_mov_to_cr envW vmcbLong 0x1000 ((streamW 2 &&& 0x38) >>> 3) =
      some (streamW 2 &&& 0x7) :=
  (x86_parse_mov_to_cr_spec envW vmcbLong 0x1000 0x1000
      { root_paging := RootPaging.x86_64, root_table_gphys := 0 }
      (by decide) (by decide)).1 streamW rfl rfl rfl

/-- Clearing the same clean bits twice equals clearing them once. -/
theorem land_land_self (x m : Nat) : (x &&& m) &&& m = x &&& m := by
  apply Nat.eq_of_testBit_eq
  intro i
  simp only [Nat.testBit_and]
  cases x.testBit i <;> cases m.testBit i <;> rfl

set_option maxHeartbeats 1000000 in
/-- The CR0-write emulator never touches the statistics counters. -/
theorem svm_handle_cr_stats (env : Env) (regs : Regs) (st : PerCpu) :
    (svm_handle_cr env regs st).1.stats = st.stats := by
  unfold svm_handle_cr
  by_cases ha : env.has_assists = true
  · by_cases hb : st.vmcb.exitinfo1 &&& (1 <<< 63) = 0
    · have hb9 : st.vmcb.exitinfo1 &&& 9223372036854775808 = 0 := hb
      simp [ha, hb, hb9]
    · simp only [ha, hb, eq_self_iff_true, if_true, if_false, ite_true,
        ite_false, Option.elim_some, update_efer, vcpu_tlb_flush,
        vcpu_skip_emulated_instruction]
      split_ifs <;> rfl
  · have ha2 : env.has_assists = false := by
      cases henv : env.has_assists
      · rfl
      · exact absurd henv ha
    rcases hp : x86_parse_mov_to_cr env st.vmcb st.vmcb.rip 0 with _ | reg <;>
      simp only [ha2, Bool.false_eq_true, if_false, ite_false, hp,
        Option.elim_none, Option.elim_some, update_efer, vcpu_tlb_flush,
        vcpu_skip_emulated_instruction]
    all_goals split_ifs <;> rfl

set_option maxHeartbeats 1000000 in
/-- The CR0-write emulator leaves the clean bits unchanged (fatal path) or
clears exactly the control-register clean bits. -/
theorem svm_handle_cr_clean (env : Env) (regs : Regs) (st : PerCpu) :
    (svm_handle_cr env regs st).1.vmcb.clean_bits = st.vmcb.clean_bits ∨
    (svm_handle_cr env regs st).1.vmcb.clean_bits =
      st.vmcb.clean_bits &&& (0xffffffff ^^^ CLEAN_BITS_CRX) := by
  unfold svm_handle_cr
  by_cases ha : env.has_assists = true
  · by_cases hb : st.vmcb.exitinfo1 &&& (1 <<< 63) = 0
    · have hb9 : st.vmcb.exitinfo1 &&& 9223372036854775808 = 0 := hb
      simp [ha, hb, hb9]
    · simp only [ha, hb, eq_self_iff_true, if_true, if_false, ite_true,
        ite_false, Option.elim_some, update_efer, vcpu_tlb_flush,
        vcpu_skip_emulated_instruction]
      split_ifs <;> simp [land_land_self]
  · have ha2 : env.has_assists = false := by
      cases henv : env.has_assists
      · rfl
      · exact absurd henv ha
    rcases hp : x86_parse_mov_to_cr env st.vmcb st.vmcb.rip 0 with _ | reg <;>
      simp only [ha2, Bool.false_eq_true, if_false, ite_false, hp,
        Option.elim_none, Option.elim_some, update_efer, vcpu_tlb_flush,
        vcpu_skip_emulated_instruction]
    all_goals try (left; trivial)
    all_goals split_ifs <;> simp [land_land_self]

/-- The MSR-read emulator never touches the statistics counters. -/
theorem svm_handle_msr_read_stats (env : Env) (regs : Regs) (st : PerCpu) :
    (svm_handle_msr_read env regs st).1.stats = st.stats := by
  simp only [svm_handle_msr_read, vcpu_skip_emulated_instruction]
  split_ifs <;> rfl

/-- The MSR-read emulator never touches the clean bits. -/
theorem svm_handle_msr_read_clean (env : Env) (regs : Regs) (st : PerCpu) :
    (svm_handle_msr_read env regs st).1.vmcb.clean_bits =
      st.vmcb.clean_bits := by
  simp only [svm_handle_msr_read, vcpu_skip_emulated_instruction]
  split_ifs <;> rfl

/-- The MSR-write emulator never touches the statistics counters. -/
theorem svm_handle_msr_write_stats (env : Env) (regs : Regs) (st : PerCpu) :
    (svm_handle_msr_write env regs st).1.stats = st.stats := by
  simp only [svm_handle_msr_write, vcpu_tlb_flush,
    vcpu_skip_emulated_instruction]
  split_ifs <;> rfl

/-- The MSR-write emulator leaves the clean bits unchanged or clears
exactly the control-register clean bits (EFER write). -/
theorem svm_handle_msr_write_clean (env : Env) (regs : Regs) (st : PerCpu) :
    (svm_handle_msr_write env regs st).1.vmcb.clean_bits =
      st.vmcb.clean_bits ∨
    (svm_handle_msr_write env regs st).1.vmcb.clean_bits =
      st.vmcb.clean_bits &&& (0xffffffff ^^^ CLEAN_BITS_CRX) := by
  simp only [svm_handle_msr_write, vcpu_tlb_flush,
    vcpu_skip_emulated_instruction]
  split_ifs <;> simp

/-- The xAPIC-access emulator never touches the statistics counters. -/
theorem svm_handle_apic_access_stats (env : Env) (regs : Regs) (st : PerCpu) :
    (svm_handle_apic_access env regs st).1.stats = st.stats := by
  simp only [svm_handle_apic_access, vcpu_skip_emulated_instruction]
  rcases hp : vcpu_get_guest_paging_structs st.vmcb with _ | pgs <;>
    simp only [hp, Option.elim_none, Option.elim_some] <;>
      split_ifs <;> rfl

/-- The xAPIC-access emulator never touches the clean bits. -/
theorem svm_handle_apic_access_clean (env : Env) (regs : Regs) (st : PerCpu) :
    (svm_handle_apic_access env regs st).1.vmcb.clean_bits =
      st.vmcb.clean_bits := by
  simp only [svm_handle_apic_access, vcpu_skip_emulated_instruction]
  rcases hp : vcpu_get_guest_paging_structs st.vmcb with _ | pgs <;>
    simp only [hp, Option.elim_none, Option.elim_some] <;>
      split_ifs <;> rfl

/-- Case split over the two possible clean-bits outcomes of the CR0-write
emulator, phrased for direct application. -/
theorem svm_handle_cr_clean_cases (env : Env) (regs : Regs) (st : PerCpu)
    (P : Nat → Prop) (h1 : P st.vmcb.clean_bits)
    (h2 : P (st.vmcb.clean_bits &&& (0xffffffff ^^^ CLEAN_BITS_CRX))) :
    P ((svm_handle_cr env regs st).1.vmcb.clean_bits) := by
  rcases svm_handle_cr_clean env regs st with h | h <;> rw [h] <;> assumption

/-- Case split over the two possible clean-bits outcomes of the MSR-write
emulator, phrased for direct application. -/
theorem svm_handle_msr_write_clean_cases (env : Env) (regs : Regs)
    (st : PerCpu) (P : Nat → Prop) (h1 : P st.vmcb.clean_bits)
    (h2 : P (st.vmcb.clean_bits &&& (0xffffffff ^^^ CLEAN_BITS_CRX))) :
    P ((svm_handle_msr_write env regs st).1.vmcb.clean_bits) := by
  rcases svm_handle_msr_write_clean env regs st with h | h <;> rw [h] <;>
    assumption

/-- Claim C9: a CPUID-intercept exit resumes the guest immediately — the
dispatcher result is exactly the input state with the per-CPU addressing
base reloaded, the total-exit counter incremented once, and the clean-bits
field reassigned; the instruction pointer, every guest register, every
per-category counter and every other control-block field are untouched. -/
theorem vcpu_handle_exit_cpuid (env : Env) (regs : Regs) (st : PerCpu)
    (h : st.vmcb.exitcode = VMEXIT_CPUID) :
    vcpu_handle_exit env regs st =
      ({ st with
          gs_base := env.cpu_data_addr,
          stats := { st.stats with total := st.stats.total + 1 },
          vmcb := { st.vmcb with clean_bits := 0xffffffff } }, regs, true) := by
  simp only [vcpu_handle_exit, h]
  rw [if_neg (show VMEXIT_CPUID ≠ VMEXIT_INVALID from by decide),
    if_neg (show VMEXIT_CPUID ≠ VMEXIT_NMI from by decide), if_pos trivial]

/-- Witness for C9 at a concrete state with exit code `0x72`. -/
theorem vcpu_handle_exit_cpuid_witness :
    vcpu_handle_exit env0 zeroRegs
        { cpu0 with vmcb := { vmcb0 with exitcode := VMEXIT_CPUID } } =
      ({ { cpu0 with vmcb := { vmcb0 with exitcode := VMEXIT_CPUID } } with
          gs_base := env0.cpu_data_addr,
          stats := { cpu0.stats with total := cpu0.stats.total + 1 },
          vmcb := { { vmcb0 with exitcode := VMEXIT_CPUID } with
                    clean_bits := 0xffffffff } }, zeroRegs, true) :=
  vcpu_handle_exit_cpuid env0 zeroRegs
    { cpu0 with vmcb := { vmcb0 with exitcode := VMEXIT_CPUID } } rfl

set_option maxHeartbeats 2000000 in
/-- Claim C2 (amended): on every invocation — whatever the exit code — the
dispatcher increments the per-CPU total-exit counter by exactly one, and
before branching it assigns all-ones to the control block's clean-bits
field, marking the entire cached guest state as clean/unmodified (the
hardware may keep using its cached copy); individual handlers then only
clear the clean bits for state they modified, so the final clean-bits value
is all-ones, all-ones with the control-register clean bit cleared, or zero
(the wake/boot reset path). -/
theorem vcpu_handle_exit_total_and_clean (env : Env) (regs : Regs)
    (st : PerCpu) :
    (vcpu_handle_exit env regs st).1.stats.total = st.stats.total + 1 ∧
    ((vcpu_handle_exit env regs st).1.vmcb.clean_bits = 0xffffffff ∨
     (vcpu_handle_exit env regs st).1.vmcb.clean_bits =
       0xffffffff &&& (0xffffffff ^^^ CLEAN_BITS_CRX) ∨
     (vcpu_handle_exit env regs st).1.vmcb.clean_bits = 0) := by
  simp only [vcpu_handle_exit]
  by_cases h1 : st.vmcb.exitcode = VMEXIT_INVALID
  · rw [if_pos h1]
    exact ⟨rfl, Or.inl rfl⟩
  rw [if_neg h1]
  by_cases h2 : st.vmcb.exitcode = VMEXIT_NMI
  · rw [if_pos h2]
    by_cases hev : (0 : Int) ≤ env.events
    · rw [if_pos hev]
      exact ⟨rfl, Or.inr (Or.inr rfl)⟩
    · rw [if_neg hev]
      exact ⟨rfl, Or.inl rfl⟩
  rw [if_neg h2]
  by_cases h3 : st.vmcb.exitcode = VMEXIT_CPUID
  · rw [if_pos h3]
    exact ⟨rfl, Or.inl rfl⟩
  rw [if_neg h3]
  by_cases h4 : st.vmcb.exitcode = VMEXIT_VMMCALL
  · rw [if_pos h4]
    exact ⟨rfl, Or.inl rfl⟩
  rw [if_neg h4]
  by_cases h5 : st.vmcb.exitcode = VMEXIT_CR0_SEL_WRITE
  · rw [if_pos h5]
    refine ⟨?_, ?_⟩
    · rw [svm_handle_cr_stats]
    · dsimp only
      refine svm_handle_cr_clean_cases env regs _
        (fun cb => cb = 0xffffffff ∨
          cb = 0xffffffff &&& (0xffffffff ^^^ CLEAN_BITS_CRX) ∨ cb = 0)
        ?_ ?_
      · exact Or.inl rfl
      · exact Or.inr (Or.inl rfl)
  rw [if_neg h5]
  by_cases h6 : st.vmcb.exitcode = VMEXIT_MSR
  · rw [if_pos h6]
    by_cases hrd : st.vmcb.exitinfo1 = 0
    · rw [if_pos hrd]
      refine ⟨?_, ?_⟩
      · rw [svm_handle_msr_read_stats]
      · rw [svm_handle_msr_read_clean]
        exact Or.inl rfl
    · rw [if_neg hrd]
      refine ⟨?_, ?_⟩
      · rw [svm_handle_msr_write_stats]
      · dsimp only
        refine svm_handle_msr_write_clean_cases env regs _
          (fun cb => cb = 0xffffffff ∨
            cb = 0xffffffff &&& (0xffffffff ^^^ CLEAN_BITS_CRX) ∨ cb = 0)
          ?_ ?_
        · exact Or.inl rfl
        · exact Or.inr (Or.inl rfl)
  rw [if_neg h6]
  by_cases h7 : st.vmcb.exitcode = VMEXIT_NPF
  · rw [if_pos h7]
    by_cases hap : st.vmcb.exitinfo1 &&& 0x7 = 0x7 ∧
        XAPIC_BASE ≤ st.vmcb.exitinfo2 ∧
        st.vmcb.exitinfo2 < XAPIC_BASE + PAGE_SIZE
    · rw [if_pos hap]
      refine ⟨?_, ?_⟩
      · rw [svm_handle_apic_access_stats]
      · rw [svm_handle_apic_access_clean]
        exact Or.inl rfl
    · rw [if_neg hap]
      exact ⟨rfl, Or.inl rfl⟩
  rw [if_neg h7]
  by_cases h8 : st.vmcb.exitcode = VMEXIT_XSETBV
  · rw [if_pos h8]
    by_cases hxs : regs.rax &&& X86_XCR0_FP ≠ 0 ∧
        regs.rax &&& (0xffffffff ^^^ (env.xcr0_supported &&& 0xffffffff)) = 0 ∧
        regs.rcx = 0 ∧ regs.rdx = 0
    · rw [if_pos hxs]
      exact ⟨rfl, Or.inl rfl⟩
    · rw [if_neg hxs]
      exact ⟨rfl, Or.inl rfl⟩
  rw [if_neg h8]
  by_cases h9 : st.vmcb.exitcode = VMEXIT_IOIO
  · rw [if_pos h9]
    exact ⟨rfl, Or.inl rfl⟩
  rw [if_neg h9]
  exact ⟨rfl, Or.inl rfl⟩

/-- Counterexample to C2 as stated: right after dispatch the clean-bits
field is all-ones, in which every bit is set — the hardware may keep using
its cached copy of every control-block field.  Marking the entire state
"dirty (must-reload)" is, by the control block's own convention (the
all-state-new value written by `vmcb_setup` and `svm_vcpu_reset`), the
value `0`, and the dispatcher's assignment is its exact opposite. -/
theorem vcpu_handle_exit_cleanbits_counterexample :
    (vcpu_handle_exit env0 zeroRegs
        { cpu0 with
          vmcb := { vmcb0 with
                    exitcode := VMEXIT_CPUID } }).1.vmcb.clean_bits =
      0xffffffff ∧
    (0xffffffff : Nat) ≠ 0 ∧
    (svm_vcpu_reset env0 cpu0 0).vmcb.clean_bits = 0 := by
  refine ⟨by decide, by decide, rfl⟩

set_option maxHeartbeats 2000000 in
/-- The dispatcher never decreases any per-CPU statistics counter: every
branch only increments counters, so each counter is monotonically
increasing across exits. -/
theorem vcpu_handle_exit_stats_mono (env : Env) (regs : Regs) (st : PerCpu) :
    st.stats.total ≤ (vcpu_handle_exit env regs st).1.stats.total ∧
    st.stats.mmio ≤ (vcpu_handle_exit env regs st).1.stats.mmio ∧
    st.stats.management ≤ (vcpu_handle_exit env regs st).1.stats.management ∧
    st.stats.hypercall ≤ (vcpu_handle_exit env regs st).1.stats.hypercall ∧
    st.stats.pio ≤ (vcpu_handle_exit env regs st).1.stats.pio ∧
    st.stats.xapic ≤ (vcpu_handle_exit env regs st).1.stats.xapic ∧
    st.stats.cr ≤ (vcpu_handle_exit env regs st).1.stats.cr ∧
    st.stats.msr ≤ (vcpu_handle_exit env regs st).1.stats.msr ∧
    st.stats.cpuid ≤ (vcpu_handle_exit env regs st).1.stats.cpuid ∧
    st.stats.xsetbv ≤ (vcpu_handle_exit env regs st).1.stats.xsetbv := by
  simp only [vcpu_handle_exit]
  by_cases h1 : st.vmcb.exitcode = VMEXIT_INVALID
  · rw [if_pos h1]
    refine ⟨?_, ?_, ?_, ?_, ?_, ?_, ?_, ?_, ?_, ?_⟩ <;> dsimp only <;> omega
  rw [if_neg h1]
  by_cases h2 : st.vmcb.exitcode = VMEXIT_NMI
  · rw [if_pos h2]
    by_cases hev : (0 : Int) ≤ env.events
    · rw [if_pos hev]
      refine ⟨?_, ?_, ?_, ?_, ?_, ?_, ?_, ?_, ?_, ?_⟩ <;>
        dsimp only [svm_vcpu_reset] <;> omega
    · rw [if_neg hev]
      refine ⟨?_, ?_, ?_, ?_, ?_, ?_, ?_, ?_, ?_, ?_⟩ <;> dsimp only <;> omega
  rw [if_neg h2]
  by_cases h3 : st.vmcb.exitcode = VMEXIT_CPUID
  · rw [if_pos h3]
    refine ⟨?_, ?_, ?_, ?_, ?_, ?_, ?_, ?_, ?_, ?_⟩ <;> dsimp only <;> omega
  rw [if_neg h3]
  by_cases h4 : st.vmcb.exitcode = VMEXIT_VMMCALL
  · rw [if_pos h4]
    refine ⟨?_, ?_, ?_, ?_, ?_, ?_, ?_, ?_, ?_, ?_⟩ <;> dsimp only <;> omega
  rw [if_neg h4]
  by_cases h5 : st.vmcb.exitcode = VMEXIT_CR0_SEL_WRITE
  · rw [if_pos h5]
    dsimp only
    rw [svm_handle_cr_stats]
    refine ⟨?_, ?_, ?_, ?_, ?_, ?_, ?_, ?_, ?_, ?_⟩ <;> dsimp only <;> omega
  rw [if_neg h5]
  by_cases h6 : st.vmcb.exitcode = VMEXIT_MSR
  · rw [if_pos h6]
    by_cases hrd : st.vmcb.exitinfo1 = 0
    · rw [if_pos hrd]
      rw [svm_handle_msr_read_stats]
      refine ⟨?_, ?_, ?_, ?_, ?_, ?_, ?_, ?_, ?_, ?_⟩ <;> dsimp only <;> omega
    · rw [if_neg hrd]
      dsimp only
      rw [svm_handle_msr_write_stats]
      refine ⟨?_, ?_, ?_, ?_, ?_, ?_, ?_, ?_, ?_, ?_⟩ <;> dsimp only <;> omega
  rw [if_neg h6]
  by_cases h7 : st.vmcb.exitcode = VMEXIT_NPF
  · rw [if_pos h7]
    by_cases hap : st.vmcb.exitinfo1 &&& 0x7 = 0x7 ∧
        XAPIC_BASE ≤ st.vmcb.exitinfo2 ∧
        st.vmcb.exitinfo2 < XAPIC_BASE + PAGE_SIZE
    · rw [if_pos hap]
      rw [svm_handle_apic_access_stats]
      refine ⟨?_, ?_, ?_, ?_, ?_, ?_, ?_, ?_, ?_, ?_⟩ <;> dsimp only <;> omega
    · rw [if_neg hap]
      refine ⟨?_, ?_, ?_, ?_, ?_, ?_, ?_, ?_, ?_, ?_⟩ <;> dsimp only <;> omega
  rw [if_neg h7]
  by_cases h8 : st.vmcb.exitcode = VMEXIT_XSETBV
  · rw [if_pos h8]
    by_cases hxs : regs.rax &&& X86_XCR0_FP ≠ 0 ∧
        regs.rax &&& (0xffffffff ^^^ (env.xcr0_supported &&& 0xffffffff)) = 0 ∧
        regs.rcx = 0 ∧ regs.rdx = 0
    · rw [if_pos hxs]
      refine ⟨?_, ?_, ?_, ?_, ?_, ?_, ?_, ?_, ?_, ?_⟩ <;>
        dsimp only [vcpu_skip_emulated_instruction] <;> omega
    · rw [if_neg hxs]
      refine ⟨?_, ?_, ?_, ?_, ?_, ?_, ?_, ?_, ?_, ?_⟩ <;> dsimp only <;> omega
  rw [if_neg h8]
  by_cases h9 : st.vmcb.exitcode = VMEXIT_IOIO
  · rw [if_pos h9]
    refine ⟨?_, ?_, ?_, ?_, ?_, ?_, ?_, ?_, ?_, ?_⟩ <;> dsimp only <;> omega
  rw [if_neg h9]
  refine ⟨?_, ?_, ?_, ?_, ?_, ?_, ?_, ?_, ?_, ?_⟩ <;> dsimp only <;> omega

/-- Accumulator form of the statistics sum: as long as each counter fits
in a positive signed 32-bit value and the total fits in the 64-bit sum,
the fold adds exactly the counters. -/
theorem stats_show_foldl_eq (hc : Nat → Int) (counters : Nat → Nat) :
    ∀ (cpus : List Nat) (acc : Nat),
      (∀ c ∈ cpus, hc c = (counters c : Int) ∧ counters c < 2 ^ 31) →
      acc + (cpus.map counters).sum < 2 ^ 64 →
      List.foldl
        (fun sum cpu =>
          let value := cIntOfLong (hc cpu)
          if 0 < value then (sum + value.toNat) % 2 ^ 64 else sum)
        acc cpus = acc + (cpus.map counters).sum := by
  intro cpus
  induction cpus with
  | nil =>
    intro acc _ _
    simp
  | cons c rest ih =>
    intro acc hall hbound
    obtain ⟨h1, h2⟩ := hall c (List.mem_cons_self c rest)
    have hrest : ∀ x ∈ rest, hc x = (counters x : Int) ∧ counters x < 2 ^ 31 :=
      fun x hx => hall x (List.mem_cons_of_mem c hx)
    have hsum : (List.map counters (c :: rest)).sum =
        counters c + (List.map counters rest).sum := by
      simp
    have hcv : cIntOfLong (hc c) = (counters c : Int) := by
      rw [h1]
      apply cIntOfLong_eq_self
      · have := Int.natCast_nonneg (counters c)
        omega
      · exact_mod_cast h2
    rw [hsum] at hbound
    rw [List.foldl_cons]
    by_cases hz : counters c = 0
    · simp only [hcv, hz, Nat.cast_zero, lt_self_iff_false, if_false,
        ite_false]
      rw [ih acc hrest (by omega), hsum]
      omega
    · have hpos : (0 : Int) < (counters c : Int) := by
        exact_mod_cast Nat.pos_of_ne_zero hz
      have hmod : (acc + counters c) % 2 ^ 64 = acc + counters c :=
        Nat.mod_eq_of_lt (by omega)
      simp only [hcv, hpos, if_true, ite_true, Int.toNat_natCast, hmod]
      rw [ih (acc + counters c) hrest (by omega), hsum]
      omega

/-- Claim C7 (amended): the per-cell value reported by the driver's
statistics read equals the sum, over exactly the CPUs assigned to the
cell, of the per-CPU counter for the category obtained via the per-CPU
information hypercall — provided each counter fits in a positive signed
32-bit integer (below 2^31; the driver truncates each hypercall result
through an `int` and drops non-positive values) and the total fits the
64-bit sum; and each per-CPU counter is monotonically increasing (the
exit dispatcher only ever increments counters). -/
theorem stats_show_sums_counters (cpus : List Nat) (hc : Nat → Int)
    (counters : Nat → Nat)
    (hall : ∀ c ∈ cpus, hc c = (counters c : Int) ∧ counters c < 2 ^ 31)
    (hbound : (cpus.map counters).sum < 2 ^ 64) :
    stats_show cpus hc = (cpus.map counters).sum ∧
    ∀ (env : Env) (regs : Regs) (st : PerCpu),
      st.stats.total ≤ (vcpu_handle_exit env regs st).1.stats.total ∧
      st.stats.mmio ≤ (vcpu_handle_exit env regs st).1.stats.mmio ∧
      st.stats.management ≤
        (vcpu_handle_exit env regs st).1.stats.management ∧
      st.stats.hypercall ≤ (vcpu_handle_exit env regs st).1.stats.hypercall ∧
      st.stats.pio ≤ (vcpu_handle_exit env regs st).1.stats.pio ∧
      st.stats.xapic ≤ (vcpu_handle_exit env regs st).1.stats.xapic ∧
      st.stats.cr ≤ (vcpu_handle_exit env regs st).1.stats.cr ∧
      st.stats.msr ≤ (vcpu_handle_exit env regs st).1.stats.msr ∧
      st.stats.cpuid ≤ (vcpu_handle_exit env regs st).1.stats.cpuid ∧
      st.stats.xsetbv ≤ (vcpu_handle_exit env regs st).1.stats.xsetbv := by
  constructor
  · have h := stats_show_foldl_eq hc counters cpus 0 hall (by omega)
    unfold stats_show
    rw [h]
    omega
  · exact fun env regs st => vcpu_handle_exit_stats_mono env regs st

/-- Witness for C7 (amended) with two CPUs holding counters 5 and 7. -/
theorem stats_show_sums_counters_witness :
    stats_show [0, 1]
        (fun c => ((if c = 0 then 5 else 7 : Nat) : Int)) =
      (([0, 1]).map (fun c => if c = 0 then 5 else 7)).sum :=
  (stats_show_sums_counters [0, 1]
    (fun c => ((if c = 0 then 5 else 7 : Nat) : Int))
    (fun c => if c = 0 then 5 else 7) (by decide) (by decide)).1

/-- Counterexample to C7 as stated: a single assigned CPU whose counter
has reached 2^31 is reported as 0, not 2^31 — the driver's `int`
truncation turns the value negative and it is skipped. -/
theorem stats_show_truncation_counterexample :
    stats_show [0] (fun _ => ((2 : Int) ^ 31)) = 0 ∧
    (([0].map fun _ => 2 ^ 31 : List Nat).sum = 2 ^ 31) ∧
    (0 : Nat) ≠ 2 ^ 31 := by
  refine ⟨by decide, by decide, by decide⟩
